import Mathlib

/-!
Shallow embedding of the ai-code-sandbox repository (container pool, sandbox
lifecycle, result classification, shell quoting, and the persistent worker
protocol), together with theorems settling the frozen claims C1..C10.

Sources embedded:
  - src/ai_code_sandbox/container_pool.py  (ContainerPool, get_pool)
  - src/ai_code_sandbox/sandbox.py         (AICodeSandbox: _setup_sandbox, run_code, close)
  - src/scripts/persistent_worker.py       (execute_bash, process_request, main)

External collaborators (the Docker runtime, json / subprocess stdlib calls)
are modelled as explicit state or as outcome parameters, per the spec's own
scoping: the runtime primitives are assumed to behave per their contract.
-/

/-! ## Container pool (src/ai_code_sandbox/container_pool.py)

`ContainerPool` holds a list of containers (identified here by their
runtime-assigned ids, which Docker guarantees distinct) and a set `in_use`
of checked-out ids.  The Python `set` is modelled as a duplicate-free list;
`set.add` is modelled by consing a fresh element (acquire only adds an id
that `findFree` certified absent) and `set.discard` by `filter`. -/

structure PoolState where
  pool_size : Nat
  containers : List Nat
  in_use : List Nat
deriving DecidableEq, Repr

/-- The scan inside `acquire`: `for c in self.containers: if c.id not in self.in_use`,
first free container in pool list order. -/
def findFree : List Nat → List Nat → Option Nat
  | [], _ => none
  | c :: cs, used => if c ∈ used then findFree cs used else some c

/-- Model of `ContainerPool.acquire` (lines 38-48).  The polling loop's wait state can
only change via a concurrent `release`; in this sequential model the in-use
set is constant during the wait, so an exhausted scan reaches the timeout and
raises `RuntimeError("No containers available in pool")`, modelled as the
`Except.error` value. -/
def acquire (s : PoolState) : Except String (Nat × PoolState) :=
  match findFree s.containers s.in_use with
  | some c => Except.ok (c, { s with in_use := c :: s.in_use })
  | none => Except.error "No containers available in pool"

/-- Model of `ContainerPool.release` (lines 50-52): `self.in_use.discard(container.id)`. -/
def release (s : PoolState) (cid : Nat) : PoolState :=
  { s with in_use := s.in_use.filter (fun x => x != cid) }

/-- Runs `n` successive `acquire` calls with no interleaved `release`. -/
def acquireN : Nat → PoolState → Except String (List Nat × PoolState)
  | 0, s => Except.ok ([], s)
  | n + 1, s =>
    match acquire s with
    | Except.error e => Except.error e
    | Except.ok (c, s1) =>
      match acquireN n s1 with
      | Except.error e => Except.error e
      | Except.ok (cs, s2) => Except.ok (c :: cs, s2)

/-- Pool state right after `_init_pool` created the given containers:
nothing checked out yet. -/
def initPool (n : Nat) (ids : List Nat) : PoolState :=
  { pool_size := n, containers := ids, in_use := [] }

/-- Model of `ContainerPool(pool_size)` as observed through `get_pool`: `_init_pool`
creates `pool_size` containers whose runtime-assigned distinct ids are
modelled as `0, 1, ..., pool_size - 1`. -/
def mkPool (pool_size : Nat) : PoolState :=
  initPool pool_size (List.range pool_size)

/-- Model of `get_pool` (lines 63-70) with the module-global `_pool` passed as explicit
state: returns the pool and the new value of `_pool`. -/
def get_pool (g : Option PoolState) (pool_size : Nat) : PoolState × Option PoolState :=
  match g with
  | some p => (p, some p)
  | none => (mkPool pool_size, some (mkPool pool_size))

/-! ## run_code result classification (src/ai_code_sandbox/sandbox.py 208-254)

After `exec_run` returns, `run_code` decodes the demuxed streams (a missing
stream decodes to the empty string) and classifies purely from
`(exit_code, stdout_text, stderr_text)`.  The classification is a total
function returning a `String`: no branch raises. -/

def run_code_result (exit_code : Int) (stdout_text stderr_text : String) : String :=
  if exit_code ≠ 0 then
    "Error (exit code " ++ toString exit_code ++ "): " ++ stderr_text
  else if stdout_text ≠ "" then
    stdout_text
  else if stderr_text ≠ "" then
    "Error: " ++ stderr_text
  else
    "No output"

/-! ## Shell quoting of the code argument (src/ai_code_sandbox/sandbox.py 192-194)

`run_code` builds
  `exec_command = f"env {env_str} python -c '{escaped_code}'"`
with `escaped_code = code.replace("'", "'\"'\"'")`, and hands the whole
command to `sh -c`.  We embed POSIX word parsing for the single code
argument: a state machine over characters with unquoted / single-quoted /
double-quoted modes.  Outside quotes (and inside double quotes) the
characters that would trigger expansion or word splitting make the parse
fail, so the theorem cannot hold by accident of an over-permissive parser. -/

def sqc : Char := Char.ofNat 39

def dqc : Char := Char.ofNat 34

inductive QuoteMode
  | plain
  | single
  | double
deriving DecidableEq, Repr

/-- One-word POSIX parse: succeeds only when the whole input forms a single
shell word, returning the literal text the command receives. Char 9/10 are
tab/newline, 92 backslash, 96 backquote. -/
def shellWordAux : List Char → QuoteMode → List Char → Option (List Char)
  | [], QuoteMode.plain, acc => some acc.reverse
  | [], QuoteMode.single, _ => none
  | [], QuoteMode.double, _ => none
  | c :: cs, QuoteMode.plain, acc =>
    if c = sqc then shellWordAux cs QuoteMode.single acc
    else if c = dqc then shellWordAux cs QuoteMode.double acc
    else if c = ' ' ∨ c = Char.ofNat 9 ∨ c = Char.ofNat 10 ∨ c = '$' ∨
        c = Char.ofNat 92 ∨ c = Char.ofNat 96 then none
    else shellWordAux cs QuoteMode.plain (c :: acc)
  | c :: cs, QuoteMode.single, acc =>
    if c = sqc then shellWordAux cs QuoteMode.plain acc
    else shellWordAux cs QuoteMode.single (c :: acc)
  | c :: cs, QuoteMode.double, acc =>
    if c = dqc then shellWordAux cs QuoteMode.plain acc
    else if c = '$' ∨ c = Char.ofNat 92 ∨ c = Char.ofNat 96 then none
    else shellWordAux cs QuoteMode.double (c :: acc)

def parseShellWord (s : List Char) : Option (List Char) :=
  shellWordAux s QuoteMode.plain []

/-- Model of `code.replace("'", "'\"'\"'")`: each single quote becomes the five
characters quote, double-quote, quote, double-quote, quote. -/
def pyQuoteEscape : List Char → List Char
  | [] => []
  | c :: cs =>
    if c = sqc then sqc :: dqc :: sqc :: dqc :: sqc :: pyQuoteEscape cs
    else c :: pyQuoteEscape cs

/-- The `'{escaped_code}'` segment of `exec_command`. -/
def codeArgument (code : List Char) : List Char :=
  sqc :: (pyQuoteEscape code ++ [sqc])

/-- The full `exec_command` f-string, for reference: the code reaches the
interpreter as the final single-word argument `codeArgument code`. -/
def exec_command (env_str : List Char) (code : List Char) : List Char :=
  "env ".data ++ env_str ++ " python -c ".data ++ codeArgument code

/-! ## Sandbox lifecycle (src/ai_code_sandbox/sandbox.py 44-106, 256-290)

The Docker runtime is explicit state: the containers that exist (name,
runtime id, status) plus an append-only event log recording every start /
stop / remove / create and image build / removal this layer performs.
Runtime failures of stop/remove/remove_image are swallowed by the source
(printed only); they are modelled as succeeding, which only adds events —
the persistent-protection theorems quantify over all appended events.

`_setup_sandbox`'s interaction with the runtime is driven by two
parameters: `startOk` (whether a found non-running persistent container
reaches `running` within the bounded start/poll loop — `False` covers every
exception of the reuse branch) and `tag` (the `uuid4().hex[:8]` value used
in the ephemeral name). -/

inductive CStatus
  | created
  | running
  | exited
deriving DecidableEq, Repr

structure DCont where
  name : String
  cid : Nat
  status : CStatus
deriving DecidableEq, Repr

inductive DEvent
  | contStarted (name : String) (cid : Nat)
  | contStopped (name : String) (cid : Nat)
  | contRemoved (name : String) (cid : Nat)
  | contCreated (name : String) (cid : Nat)
  | imageBuilt (ref : String)
  | imageRemoved (ref : String)
deriving DecidableEq, Repr

structure DockerState where
  containers : List DCont
  events : List DEvent
  freshId : Nat
deriving DecidableEq, Repr

/-- The fields of `AICodeSandbox` the lifecycle claims are about:
`self.container` (name and runtime id of the attached container) and
`self.temp_image`. -/
structure SandboxState where
  container : Option (String × Nat)
  temp_image : Option String
deriving DecidableEq, Repr

def persistentName : String := "sandbox_persistent"

/-- The fixed default package set of `_setup_sandbox` (lines 47-50). -/
def defaultPackages : List String :=
  ["requests", "numpy", "pandas", "matplotlib", "scipy",
   "beautifulsoup4", "fastapi", "pillow", "opencv-python", "regex"]

/-- Model of `set(packages) == set(default_packages)`. -/
def listSetEq (a b : List String) : Bool :=
  a.all (fun x => b.contains x) && b.all (fun x => a.contains x)

/-- Python truthiness of the `packages` value at `if packages:` — `None` and
the empty list are falsy. -/
def pkgsTruthy : Option (List String) → Bool
  | some (_ :: _) => true
  | _ => false

/-- Reference returned by `client.images.build` for the one-off image. -/
def builtImageRef (base : String) : String := "built:" ++ base

/-- Model of `client.containers.run(image, name=..., detach=True, ...)`: the new
container starts running under the next runtime-assigned id. -/
def createContainer (name : String) (d : DockerState) : Nat × DockerState :=
  (d.freshId,
   { containers := { name := name, cid := d.freshId, status := CStatus.running } :: d.containers,
     events := d.events ++ [DEvent.contCreated name d.freshId],
     freshId := d.freshId + 1 })

/-- Lines 84-106 of `_setup_sandbox`: resolve the base image, build a one-off
image when `packages` is truthy, then run a container named
`sandbox_persistent` exactly when `is_default_setup` holds and
`python_sandbox_{tag}` otherwise. -/
def setupCreate (custom_image : Option String) (packages : Option (List String))
    (tag : String) (d : DockerState) : SandboxState × DockerState :=
  let image_name := custom_image.getD "python:3.9-slim"
  let doBuild := pkgsTruthy packages
  let temp_image := if doBuild then some (builtImageRef image_name) else none
  let d1 := if doBuild then
      { d with events := d.events ++ [DEvent.imageBuilt (builtImageRef image_name)] }
    else d
  let is_default_setup :=
    custom_image.isNone && packages.isSome && listSetEq (packages.getD []) defaultPackages
  let container_name := if is_default_setup then persistentName else "python_sandbox_" ++ tag
  let (cid, d2) := createContainer container_name d1
  ({ container := some (container_name, cid), temp_image := temp_image }, d2)

/-- Model of `container.start()` followed by the reload/poll loop reaching `running`. -/
def startContainer (c : DCont) (d : DockerState) : DockerState :=
  { d with
    containers := d.containers.map
      (fun x => if x.cid = c.cid then { x with status := CStatus.running } else x),
    events := d.events ++ [DEvent.contStarted c.name c.cid] }

/-- Lines 74-79: the recovery path of the reuse branch — fetch the broken
persistent container again and `remove(force=True)` it. -/
def removeBroken (c : DCont) (d : DockerState) : DockerState :=
  { d with
    containers := d.containers.filter (fun x => x.cid != c.cid),
    events := d.events ++ [DEvent.contRemoved c.name c.cid] }

/-- Model of `_setup_sandbox` (lines 44-106).  With both arguments unset it looks up
`sandbox_persistent`: reuse it if running; if present but not running, start
it (`startOk` tells whether the bounded poll reaches `running`) — on failure
the raised exception is caught, the broken container is force-removed, and
creation proceeds with the default package set.  Otherwise creation runs
directly with the given arguments. -/
def setupSandbox (custom_image : Option String) (packages : Option (List String))
    (startOk : Bool) (tag : String) (d : DockerState) : SandboxState × DockerState :=
  if custom_image.isNone && packages.isNone then
    match d.containers.find? (fun c => c.name == persistentName) with
    | some c =>
      if c.status = CStatus.running then
        ({ container := some (c.name, c.cid), temp_image := none }, d)
      else if startOk then
        ({ container := some (c.name, c.cid), temp_image := none }, startContainer c d)
      else
        setupCreate none (some defaultPackages) tag (removeBroken c d)
    | none => setupCreate none (some defaultPackages) tag d
  else
    setupCreate custom_image packages tag d

/-- Model of `close` (lines 256-286): stop and remove the attached container unless it
is named `sandbox_persistent`, clear `self.container`; then remove the
temporary image (bounded retries, failures printed only) and clear
`self.temp_image`. -/
def closeSandbox (s : SandboxState) (d : DockerState) : SandboxState × DockerState :=
  let step1 : SandboxState × DockerState :=
    match s.container with
    | some (name, cid) =>
      if name ≠ persistentName then
        ({ container := none, temp_image := s.temp_image },
         { d with
           containers := d.containers.filter (fun x => x.cid != cid),
           events := d.events ++ [DEvent.contStopped name cid, DEvent.contRemoved name cid] })
      else
        ({ container := none, temp_image := s.temp_image }, d)
    | none => (s, d)
  match step1.1.temp_image with
  | some img =>
    ({ container := step1.1.container, temp_image := none },
     { step1.2 with events := step1.2.events ++ [DEvent.imageRemoved img] })
  | none => step1

/-- An event that stops or removes a container named `sandbox_persistent`. -/
def stopsOrRemovesPersistent : DEvent → Bool
  | DEvent.contStopped n _ => n == persistentName
  | DEvent.contRemoved n _ => n == persistentName
  | _ => false

/-! ## Persistent worker protocol (src/scripts/persistent_worker.py)

`json.loads` / `json.dumps` and the actual subprocess / sandbox executions
are external; they enter the model as oracles: `parse` maps a stripped line
to the parsed request or the decode-error message, and per-request outcome
functions give what `subprocess.run` (bash path) or the `AICodeSandbox`
calls (python path) did.  Responses are modelled structurally (the JSON
object emitted on stdout); the `timings` map is observability-only and
omitted.  A request dict is modelled by its four relevant keys; a missing
or non-string `code` is `none`. -/

/-- Python `str.strip()` (whitespace strip on both ends), written so the
kernel can evaluate it on concrete strings. -/
def pyStrip (s : String) : String :=
  String.mk (((s.data.dropWhile Char.isWhitespace).reverse.dropWhile Char.isWhitespace).reverse)

structure Request where
  rid : Option String
  code : Option String
  language : Option String
  packages : Option (List String)
deriving DecidableEq, Repr

structure Response where
  rid : Option String
  success : Bool
  result : Option String
  error : Option String
  stdout : Option String
  stderr : Option String
deriving DecidableEq, Repr

inductive ParseOutcome
  | ok (req : Request)
  | err (msg : String)
deriving DecidableEq, Repr

/-- What `subprocess.run(code, shell=True, timeout=30)` did. -/
inductive BashOutcome
  | completed (stdout stderr : String) (returncode : Int)
  | timedOut (stdoutSoFar : Option String)
  | raised (msg : String)
deriving DecidableEq, Repr

/-- What the python path's external calls did. -/
inductive PyOutcome
  | importFails (msg : String)
  | initRaises (msg : String)
  | runRaises (msg : String)
  | ok (result : String)
deriving DecidableEq, Repr

/-- Model of `execute_bash` (lines 14-34): on completion pass through the triple; on
`TimeoutExpired` (the runner kills the child before raising it) return the
partial stdout, the fixed message and the synthesized code 124; on any other
exception return `("", str(e), 1)`. -/
def execute_bash : BashOutcome → String × String × Int
  | BashOutcome.completed out err rc => (out, err, rc)
  | BashOutcome.timedOut stdoutSoFar => (stdoutSoFar.getD "", "Bash execution timed out (30s)", 124)
  | BashOutcome.raised msg => ("", msg, 1)

def errResponse (rid : Option String) (msg : String) : Response :=
  { rid := rid, success := false, result := none, error := some msg,
    stdout := none, stderr := none }

def okResponse (rid : Option String) (out : String) : Response :=
  { rid := rid, success := true, result := some out, error := none,
    stdout := none, stderr := none }

/-- Model of `process_request` (lines 36-138): resolve the id with default
`"unknown"`, reject missing/blank code, dispatch on `language` (default
`"python"`).  Bash branch: non-zero return code gives a failure response
whose error is the stderr text (or a formatted fallback when stderr is
empty) and which carries both streams; zero gives success with stdout as
result.  Python branch: the three exception funnels each give a failure
response; success carries `run_code`'s string. -/
def process_request (py : PyOutcome) (bash : BashOutcome) (r : Request) : Response :=
  let request_id := r.rid.getD "unknown"
  match r.code with
  | none => errResponse (some request_id) "missing or empty code"
  | some c =>
    if pyStrip c = "" then errResponse (some request_id) "missing or empty code"
    else if r.language.getD "python" = "bash" then
      let (out, err, rc) := execute_bash bash
      if rc ≠ 0 then
        { rid := some request_id, success := false, result := none,
          error := some (if err ≠ "" then err else "Bash exited with code " ++ toString rc),
          stdout := some out, stderr := some err }
      else okResponse (some request_id) out
    else
      match py with
      | PyOutcome.importFails m => errResponse (some request_id) ("failed to import: " ++ m)
      | PyOutcome.initRaises m => errResponse (some request_id) m
      | PyOutcome.runRaises m => errResponse (some request_id) m
      | PyOutcome.ok res => okResponse (some request_id) res

/-- The body of `main`'s `for line in sys.stdin` for one line (lines
145-173): strip, skip blank lines, parse; a decode failure emits
`{"success": False, "error": f"invalid json: {e}"}` — an object with no id
key at all. -/
def processLine (py : Request → PyOutcome) (bash : Request → BashOutcome)
    (parse : String → ParseOutcome) (line : String) : List Response :=
  if pyStrip line = "" then []
  else
    match parse (pyStrip line) with
    | ParseOutcome.ok req => [process_request (py req) (bash req) req]
    | ParseOutcome.err e =>
      [{ rid := none, success := false, result := none,
         error := some ("invalid json: " ++ e), stdout := none, stderr := none }]

/-- Model of `main` (lines 140-176): process every stdin line in order; the loop body
never escapes (both exception arms emit a response and continue). -/
def main_loop (py : Request → PyOutcome) (bash : Request → BashOutcome)
    (parse : String → ParseOutcome) : List String → List Response
  | [] => []
  | l :: ls => processLine py bash parse l ++ main_loop py bash parse ls

/-- Concrete oracle instantiations used to evaluate the worker model on
concrete inputs: a python execution that prints 4, a bash command exiting 0,
and a parser accepting exactly the line `ok`. -/
def pyOracle0 : Request → PyOutcome := fun _ => PyOutcome.ok "4\n"

def bashOracle0 : Request → BashOutcome := fun _ => BashOutcome.completed "" "" 0

def parseOracle0 : String → ParseOutcome := fun s =>
  if s = "ok" then
    ParseOutcome.ok
      { rid := some "1", code := some "print(2+2)", language := none, packages := none }
  else ParseOutcome.err "Expecting value"

/-! ## Theorems -/

theorem findFree_eq_head (l used : List Nat) :
    findFree l used = (l.filter (fun x => decide (x ∉ used))).head? := by
  induction l with
  | nil => rfl
  | cons a t ih =>
    by_cases h : a ∈ used
    · simp [findFree, h, ih]
    · simp [findFree, h, ih]

theorem findFree_all_used (l used : List Nat) (h : ∀ x ∈ l, x ∈ used) :
    findFree l used = none := by
  rw [findFree_eq_head]
  have : l.filter (fun x => decide (x ∉ used)) = [] := by
    rw [List.filter_eq_nil_iff]
    intro a ha
    simp [h a ha]
  rw [this]
  rfl

theorem filter_not_mem_split (done rest inuse : List Nat)
    (hmem : ∀ x, x ∈ inuse ↔ x ∈ done) (hnd : (done ++ rest).Nodup) :
    (done ++ rest).filter (fun x => decide (x ∉ inuse)) = rest := by
  rw [List.filter_append]
  have h1 : done.filter (fun x => decide (x ∉ inuse)) = [] := by
    rw [List.filter_eq_nil_iff]
    intro a ha
    simp [hmem]
    exact ha
  have h2 : rest.filter (fun x => decide (x ∉ inuse)) = rest := by
    rw [List.filter_eq_self]
    intro a ha
    have hdisj : a ∉ done := by
      rw [List.nodup_append] at hnd
      intro had
      exact hnd.2.2 had ha
    simp [hmem]
    exact hdisj
  rw [h1, h2]
  rfl

theorem acquireN_go (n : Nat) (rest : List Nat) : ∀ (done inuse : List Nat),
    (∀ x, x ∈ inuse ↔ x ∈ done) → (done ++ rest).Nodup →
    acquireN rest.length { pool_size := n, containers := done ++ rest, in_use := inuse } =
      Except.ok (rest,
        { pool_size := n, containers := done ++ rest, in_use := rest.reverse ++ inuse }) := by
  induction rest with
  | nil =>
    intro done inuse hmem hnd
    simp [acquireN]
  | cons r rt ih =>
    intro done inuse hmem hnd
    have hf : findFree (done ++ r :: rt) inuse = some r := by
      rw [findFree_eq_head, filter_not_mem_split done (r :: rt) inuse hmem hnd]
      rfl
    have hmem2 : ∀ x, x ∈ r :: inuse ↔ x ∈ done ++ [r] := by
      intro x
      simp [hmem x]
      tauto
    have hnd2 : ((done ++ [r]) ++ rt).Nodup := by
      rw [List.append_assoc]
      simpa using hnd
    have ih2 := ih (done ++ [r]) (r :: inuse) hmem2 hnd2
    rw [List.append_assoc] at ih2
    simp only [List.singleton_append] at ih2
    show acquireN (rt.length + 1) _ = _
    simp only [acquireN, acquire, hf, ih2]
    simp

/-- Claim C5: in a pool of N distinct members with nothing checked out, N
successive `acquire` calls with no interleaved `release` hand out exactly the
members in pool list order (first free wins), each absent from the in-use set
when picked and marked in-use, and a further `acquire` finds no free member,
so its polling loop runs out its timeout and it fails with the
pool-exhausted `RuntimeError("No containers available in pool")`. -/
theorem C5_acquire_fills_then_exhausts (n : Nat) (ids : List Nat) (hnd : ids.Nodup) :
    acquireN ids.length (initPool n ids) =
      Except.ok (ids, { pool_size := n, containers := ids, in_use := ids.reverse }) ∧
    acquire { pool_size := n, containers := ids, in_use := ids.reverse } =
      Except.error "No containers available in pool" := by
  constructor
  · have h := acquireN_go n ids [] [] (by simp) (by simpa using hnd)
    simpa using h
  · unfold acquire
    rw [findFree_all_used]
    intro x hx
    simpa using hx

/-- Witness for C5 at the concrete pool [5, 3, 9]. -/
theorem C5_witness :
    acquireN 3 (initPool 3 [5, 3, 9]) =
      Except.ok ([5, 3, 9],
        { pool_size := 3, containers := [5, 3, 9], in_use := [9, 3, 5] }) ∧
    acquire { pool_size := 3, containers := [5, 3, 9], in_use := [9, 3, 5] } =
      Except.error "No containers available in pool" :=
  C5_acquire_fills_then_exhausts 3 [5, 3, 9] (by decide)

/-- Claim C6: `release` is idempotent and total — the released handle is no
longer in the in-use set afterwards (removed if present), every other
checked-out handle stays in-use and nothing else in the pool state changes,
and releasing an already-free or never-acquired handle leaves the pool state
unchanged entirely (so subsequent acquire behaviour is that of a single
release); being a total function, it raises nothing. -/
theorem C6_release_idempotent (s : PoolState) (h : Nat) :
    h ∉ (release s h).in_use ∧
    (∀ x ∈ s.in_use, x ≠ h → x ∈ (release s h).in_use) ∧
    (∀ x ∈ (release s h).in_use, x ∈ s.in_use) ∧
    ((release s h).containers = s.containers ∧ (release s h).pool_size = s.pool_size) ∧
    release (release s h) h = release s h ∧
    (h ∉ s.in_use → release s h = s) := by
  refine ⟨?_, ?_, ?_, ⟨rfl, rfl⟩, ?_, ?_⟩
  · simp [release]
  · intro x hx hne
    simp [release, List.mem_filter, hx, hne]
  · intro x hx
    simp [release, List.mem_filter] at hx
    exact hx.1
  · simp only [release]
    rw [List.filter_filter]
    simp
  · intro hfree
    have heq : s.in_use.filter (fun x => x != h) = s.in_use := by
      rw [List.filter_eq_self]
      intro a ha
      simp
      intro e
      exact hfree (e ▸ ha)
    simp [release, heq]

/-- Witness for C6: releasing the checked-out handle 0 removes it from the
in-use set, and releasing the never-acquired handle 5 twice is a no-op. -/
theorem C6_witness :
    0 ∉ (release { pool_size := 2, containers := [0, 1], in_use := [0] } 0).in_use ∧
    release (release { pool_size := 2, containers := [0, 1], in_use := [0] } 5) 5 =
      release { pool_size := 2, containers := [0, 1], in_use := [0] } 5 ∧
    release { pool_size := 2, containers := [0, 1], in_use := [0] } 5 =
      { pool_size := 2, containers := [0, 1], in_use := [0] } :=
  ⟨(C6_release_idempotent { pool_size := 2, containers := [0, 1], in_use := [0] } 0).1,
   (C6_release_idempotent { pool_size := 2, containers := [0, 1], in_use := [0] } 5).2.2.2.2.1,
   (C6_release_idempotent { pool_size := 2, containers := [0, 1], in_use := [0] } 5).2.2.2.2.2
     (by decide)⟩

/-- Claim C10: only the first `get_pool` call takes effect — from an unset
global it constructs the pool with its `pool_size` argument and stores it,
and with the global already set every call returns that same pool unchanged
whatever `pool_size` it passes. -/
theorem C10_get_pool_first_call_wins (pool_size : Nat) (p : PoolState) (m : Nat) :
    get_pool none pool_size = (mkPool pool_size, some (mkPool pool_size)) ∧
    get_pool (some p) m = (p, some p) :=
  ⟨rfl, rfl⟩

/-- Claim C2: `run_code` classifies the exec outcome as a returned value —
non-zero exit gives the formatted error string with the exit code and stderr
(no exception: the classification is a total function); exit 0 with stdout
gives exactly the stdout text; exit 0 with only stderr gives the
error-flagged stderr; exit 0 with both streams empty gives "No output". -/
theorem C2_run_code_classification (ec : Int) (so se : String) :
    (ec ≠ 0 → run_code_result ec so se = "Error (exit code " ++ toString ec ++ "): " ++ se) ∧
    (ec = 0 → so ≠ "" → run_code_result ec so se = so) ∧
    (ec = 0 → so = "" → se ≠ "" → run_code_result ec so se = "Error: " ++ se) ∧
    (ec = 0 → so = "" → se = "" → run_code_result ec so se = "No output") := by
  refine ⟨?_, ?_, ?_, ?_⟩ <;> intros <;> simp_all [run_code_result]

/-- Witness for C2 at all four concrete outcomes. -/
theorem C2_witness :
    run_code_result 2 "" "boom" = "Error (exit code 2): boom" ∧
    run_code_result 0 "X" "" = "X" ∧
    run_code_result 0 "" "warn" = "Error: warn" ∧
    run_code_result 0 "" "" = "No output" :=
  ⟨(C2_run_code_classification 2 "" "boom").1 (by decide),
   (C2_run_code_classification 0 "X" "").2.1 rfl (by decide),
   (C2_run_code_classification 0 "" "warn").2.2.1 rfl rfl (by decide),
   (C2_run_code_classification 0 "" "").2.2.2 rfl rfl rfl⟩

theorem shellWord_single_sqc (cs acc : List Char) :
    shellWordAux (sqc :: cs) QuoteMode.single acc = shellWordAux cs QuoteMode.plain acc := by
  simp [shellWordAux]

theorem shellWord_single_other (c : Char) (h : c ≠ sqc) (cs acc : List Char) :
    shellWordAux (c :: cs) QuoteMode.single acc = shellWordAux cs QuoteMode.single (c :: acc) := by
  simp [shellWordAux, h]

theorem shellWord_plain_sqc (cs acc : List Char) :
    shellWordAux (sqc :: cs) QuoteMode.plain acc = shellWordAux cs QuoteMode.single acc := by
  simp [shellWordAux]

theorem shellWord_plain_dqc (cs acc : List Char) :
    shellWordAux (dqc :: cs) QuoteMode.plain acc = shellWordAux cs QuoteMode.double acc := by
  have h : ¬(dqc = sqc) := by decide
  simp [shellWordAux, h]

theorem shellWord_double_sqc (cs acc : List Char) :
    shellWordAux (sqc :: cs) QuoteMode.double acc =
      shellWordAux cs QuoteMode.double (sqc :: acc) := by
  have h1 : ¬(sqc = dqc) := by decide
  have h2 : ¬(sqc = '$' ∨ sqc = Char.ofNat 92 ∨ sqc = Char.ofNat 96) := by decide
  simp [shellWordAux, h1, h2]

theorem shellWord_double_dqc (cs acc : List Char) :
    shellWordAux (dqc :: cs) QuoteMode.double acc = shellWordAux cs QuoteMode.plain acc := by
  simp [shellWordAux]

/-- Scanning the escaped code inside the opened single quotes, then the
closing quote, yields the accumulated prefix followed by the original code. -/
theorem shellWord_escape_run (code : List Char) : ∀ acc : List Char,
    shellWordAux (pyQuoteEscape code ++ [sqc]) QuoteMode.single acc =
      some (acc.reverse ++ code) := by
  induction code with
  | nil =>
    intro acc
    simp [pyQuoteEscape, shellWord_single_sqc, shellWordAux]
  | cons c cs ih =>
    intro acc
    by_cases hc : c = sqc
    · subst hc
      simp only [pyQuoteEscape, eq_self_iff_true, if_true, List.cons_append]
      rw [shellWord_single_sqc, shellWord_plain_dqc, shellWord_double_sqc,
        shellWord_double_dqc, shellWord_plain_sqc, ih (sqc :: acc)]
      simp
    · simp only [pyQuoteEscape, if_neg hc, List.cons_append]
      rw [shellWord_single_other c hc, ih (c :: acc)]
      simp

/-- Claim C4: for every code string, including ones containing single-quote
characters, the `'{escaped_code}'` argument that `run_code` builds (closing
and reopening the shell quoting around each embedded quote) parses under
POSIX shell quoting as exactly one word whose text is the code itself — the
interpreter receives the dedented code unchanged as a single argument, so
embedded quotes cannot change the observable behaviour. -/
theorem C4_quoting_preserves_code (code : List Char) :
    parseShellWord (codeArgument code) = some code := by
  unfold parseShellWord codeArgument
  rw [shellWord_plain_sqc, shellWord_escape_run code []]
  rfl

theorem closeSandbox_clears (s : SandboxState) (d : DockerState) :
    (closeSandbox s d).1 = { container := none, temp_image := none } := by
  obtain ⟨cont, img⟩ := s
  cases cont with
  | none => cases img <;> rfl
  | some nc =>
    obtain ⟨name, cid⟩ := nc
    by_cases hn : name = persistentName <;> cases img <;> simp [closeSandbox, hn]

/-- Claim C9: `close()` is idempotent — one call clears the container and
temporary-image fields, and any further call (including the one `__del__`
makes when the object is discarded) is a pure no-op on the runtime state and
raises nothing. -/
theorem C9_close_idempotent (s : SandboxState) (d : DockerState) :
    (closeSandbox s d).1 = { container := none, temp_image := none } ∧
    ∀ d2, closeSandbox (closeSandbox s d).1 d2 = ((closeSandbox s d).1, d2) := by
  refine ⟨closeSandbox_clears s d, fun d2 => ?_⟩
  rw [closeSandbox_clears]
  rfl

theorem events_append_safe {evts new : List DEvent}
    (h : ∀ e ∈ evts, stopsOrRemovesPersistent e = false)
    (h2 : ∀ e ∈ new, stopsOrRemovesPersistent e = false) :
    ∀ e ∈ evts ++ new, stopsOrRemovesPersistent e = false := by
  intro e he
  rcases List.mem_append.mp he with h1 | h1
  exacts [h e h1, h2 e h1]

theorem closeSandbox_no_persistent_stop_remove (s : SandboxState) (d : DockerState)
    (h : ∀ e ∈ d.events, stopsOrRemovesPersistent e = false) :
    ∀ e ∈ (closeSandbox s d).2.events, stopsOrRemovesPersistent e = false := by
  intro e he
  obtain ⟨cont, img⟩ := s
  cases cont with
  | none =>
    cases img with
    | none => exact h e he
    | some i =>
      simp [closeSandbox] at he
      rcases he with he | rfl
      · exact h e he
      · rfl
  | some nc =>
    obtain ⟨name, cid⟩ := nc
    by_cases hn : name = persistentName
    · cases img with
      | none =>
        simp [closeSandbox, hn] at he
        exact h e he
      | some i =>
        simp [closeSandbox, hn] at he
        rcases he with he | rfl
        · exact h e he
        · rfl
    · cases img with
      | none =>
        simp [closeSandbox, hn] at he
        rcases he with he | rfl | rfl
        · exact h e he
        · simp [stopsOrRemovesPersistent, hn]
        · simp [stopsOrRemovesPersistent, hn]
      | some i =>
        simp [closeSandbox, hn] at he
        rcases he with he | rfl | rfl | rfl
        · exact h e he
        · simp [stopsOrRemovesPersistent, hn]
        · simp [stopsOrRemovesPersistent, hn]
        · rfl

theorem setupCreate_no_persistent_stop_remove (ci : Option String)
    (pkgs : Option (List String)) (tag : String) (d : DockerState)
    (h : ∀ e ∈ d.events, stopsOrRemovesPersistent e = false) :
    ∀ e ∈ (setupCreate ci pkgs tag d).2.events, stopsOrRemovesPersistent e = false := by
  intro e he
  cases hb : pkgsTruthy pkgs
  · simp [setupCreate, createContainer, hb] at he
    rcases he with he | rfl
    · exact h e he
    · rfl
  · simp [setupCreate, createContainer, hb] at he
    rcases he with he | rfl | rfl
    · exact h e he
    · rfl
    · rfl

theorem setupSandbox_no_persistent_stop_remove_when_start_ok (ci : Option String)
    (pkgs : Option (List String)) (tag : String) (d : DockerState)
    (h : ∀ e ∈ d.events, stopsOrRemovesPersistent e = false) :
    ∀ e ∈ (setupSandbox ci pkgs true tag d).2.events, stopsOrRemovesPersistent e = false := by
  intro e he
  cases hd : (ci.isNone && pkgs.isNone)
  · rw [setupSandbox, if_neg (by simp [hd])] at he
    exact setupCreate_no_persistent_stop_remove ci pkgs tag d h e he
  · rw [setupSandbox, if_pos (by simp_all)] at he
    cases hf : d.containers.find? (fun c => c.name == persistentName) with
    | none =>
      rw [hf] at he
      exact setupCreate_no_persistent_stop_remove none (some defaultPackages) tag d h e he
    | some c =>
      rw [hf] at he
      by_cases hst : c.status = CStatus.running
      · simp [hst] at he
        exact h e he
      · simp [hst, startContainer] at he
        rcases he with he | rfl
        · exact h e he
        · rfl

/-- Claim C1 (amended): `close()` never stops or removes a container named
`sandbox_persistent` — every runtime operation it performs targets other
names — and a Sandbox attached to the persistent container leaves the
container set untouched on close; moreover `_setup_sandbox` stops or removes
the persistent container in no code path *except* its broken-container
recovery: whenever the reuse branch brings the container to running (or it
is absent), setup performs no stop/remove of the persistent name either.
(The recovery path itself does remove it; see the counterexample.) -/
theorem C1_persistent_protection
    (s : SandboxState) (d : DockerState) (ci : Option String)
    (pkgs : Option (List String)) (tag : String) (d0 : DockerState)
    (hc : ∀ e ∈ d.events, stopsOrRemovesPersistent e = false)
    (hs : ∀ e ∈ d0.events, stopsOrRemovesPersistent e = false) :
    (∀ e ∈ (closeSandbox s d).2.events, stopsOrRemovesPersistent e = false) ∧
    (∀ cid, s.container = some (persistentName, cid) →
      (closeSandbox s d).2.containers = d.containers) ∧
    (∀ e ∈ (setupSandbox ci pkgs true tag d0).2.events,
      stopsOrRemovesPersistent e = false) := by
  refine ⟨closeSandbox_no_persistent_stop_remove s d hc, ?_,
    setupSandbox_no_persistent_stop_remove_when_start_ok ci pkgs tag d0 hs⟩
  intro cid hp
  obtain ⟨cont, img⟩ := s
  simp at hp
  subst hp
  cases img <;> simp [closeSandbox]

/-- Witness for C1 at a concrete state holding only the running persistent
container: closing a Sandbox attached to it and re-running a successful
default setup never stop or remove it. -/
theorem C1_witness :
    (∀ e ∈ (closeSandbox { container := some (persistentName, 0), temp_image := none }
        { containers := [{ name := persistentName, cid := 0, status := CStatus.running }],
          events := [], freshId := 1 }).2.events, stopsOrRemovesPersistent e = false) ∧
    (∀ cid, ({ container := some (persistentName, 0), temp_image := none } :
        SandboxState).container = some (persistentName, cid) →
      (closeSandbox { container := some (persistentName, 0), temp_image := none }
        { containers := [{ name := persistentName, cid := 0, status := CStatus.running }],
          events := [], freshId := 1 }).2.containers =
        [{ name := persistentName, cid := 0, status := CStatus.running }]) ∧
    (∀ e ∈ (setupSandbox none none true "ab12cd34"
        { containers := [{ name := persistentName, cid := 0, status := CStatus.running }],
          events := [], freshId := 1 }).2.events, stopsOrRemovesPersistent e = false) :=
  C1_persistent_protection
    { container := some (persistentName, 0), temp_image := none }
    { containers := [{ name := persistentName, cid := 0, status := CStatus.running }],
      events := [], freshId := 1 }
    none none "ab12cd34"
    { containers := [{ name := persistentName, cid := 0, status := CStatus.running }],
      events := [], freshId := 1 }
    (by simp) (by simp)

/-- Counterexample to C1 as stated: when the persistent container exists but
fails to reach running status during default setup, the recovery path of
`_setup_sandbox` (lines 74-79) force-removes the container named
`sandbox_persistent` — so the Sandbox layer does transition it to removed. -/
theorem C1_counterexample :
    ((setupSandbox none none false "ab12cd34"
      { containers := [{ name := persistentName, cid := 0, status := CStatus.exited }],
        events := [], freshId := 1 }).2.events.any stopsOrRemovesPersistent) = true := by
  decide

theorem ephemeral_name_ne_persistent (tag : String) :
    "python_sandbox_" ++ tag ≠ persistentName := by
  intro h
  have h2 := congrArg String.data h
  rw [String.data_append] at h2
  rw [show ("python_sandbox_" : String).data = 'p' :: "ython_sandbox_".data from rfl] at h2
  rw [show (persistentName : String).data = 's' :: "andbox_persistent".data from rfl] at h2
  simp at h2

/-- Claim C8 (amended): when `customImage` or `packages` is explicitly given,
the persistent-reuse branch is skipped entirely and the Sandbox runs the
creation path, owning what it creates: a one-off image is built exactly when
a non-empty package list was given (a custom image alone is run directly,
with no build), and the environment is run under the ephemeral name
`python_sandbox_{tag}` — which is never the well-known persistent name —
except in the one case where no custom image is given and the packages
set-equal the default package set, in which case the container is named
`sandbox_persistent` itself. -/
theorem C8_explicit_args_create (ci : Option String) (pkgs : Option (List String))
    (startOk : Bool) (tag : String) (d : DockerState)
    (hexp : ci.isSome = true ∨ pkgs.isSome = true) :
    setupSandbox ci pkgs startOk tag d = setupCreate ci pkgs tag d ∧
    (setupSandbox ci pkgs startOk tag d).1.temp_image.isSome = pkgsTruthy pkgs ∧
    (setupSandbox ci pkgs startOk tag d).1.container =
      some (if ci.isNone && pkgs.isSome && listSetEq (pkgs.getD []) defaultPackages
            then persistentName else "python_sandbox_" ++ tag, d.freshId) ∧
    "python_sandbox_" ++ tag ≠ persistentName := by
  have hb : (ci.isNone && pkgs.isNone) = false := by
    rcases hexp with h | h
    · cases ci <;> simp_all
    · cases pkgs <;> simp_all
  have h1 : setupSandbox ci pkgs startOk tag d = setupCreate ci pkgs tag d := by
    rw [setupSandbox, if_neg (by simp [hb])]
  refine ⟨h1, ?_, ?_, ephemeral_name_ne_persistent tag⟩
  · rw [h1]
    cases hb2 : pkgsTruthy pkgs <;> simp [setupCreate, createContainer, hb2]
  · rw [h1]
    cases hb2 : pkgsTruthy pkgs <;> simp [setupCreate, createContainer, hb2]

/-- Witness for C8: an explicit custom image and package list on an empty
runtime state. -/
theorem C8_witness :
    setupSandbox (some "img") (some ["foo"]) true "cafe0123"
        { containers := [], events := [], freshId := 0 } =
      setupCreate (some "img") (some ["foo"]) "cafe0123"
        { containers := [], events := [], freshId := 0 } ∧
    (setupSandbox (some "img") (some ["foo"]) true "cafe0123"
        { containers := [], events := [], freshId := 0 }).1.temp_image.isSome =
      pkgsTruthy (some ["foo"]) ∧
    (setupSandbox (some "img") (some ["foo"]) true "cafe0123"
        { containers := [], events := [], freshId := 0 }).1.container =
      some (if (some "img" : Option String).isNone && (some ["foo"] : Option (List String)).isSome &&
              listSetEq ((some ["foo"] : Option (List String)).getD []) defaultPackages
            then persistentName else "python_sandbox_" ++ "cafe0123", 0) ∧
    "python_sandbox_" ++ "cafe0123" ≠ persistentName :=
  C8_explicit_args_create (some "img") (some ["foo"]) true "cafe0123"
    { containers := [], events := [], freshId := 0 } (Or.inl rfl)

/-- Counterexample to C8 as stated: explicitly passing the default package
set (with no custom image) runs the environment under the *persistent* name,
not a uniquely-named ephemeral one; and a custom image alone builds no
one-off image at all. -/
theorem C8_counterexample :
    (setupSandbox none (some defaultPackages) true "ab12cd34"
      { containers := [], events := [], freshId := 0 }).1.container =
      some (persistentName, 0) ∧
    (setupSandbox (some "myimage") none true "ab12cd34"
      { containers := [], events := [], freshId := 0 }).1.temp_image = none := by
  constructor <;> rfl

/-- Claim C3 (amended): every non-blank input line produces exactly one
response line and blank lines produce none; the loop processes a malformed
line and every line after it (it never terminates on bad input, so a valid
request after any number of malformed ones is still answered); a line that
fails JSON parsing produces a response with success=false whose error is the
parse message — but that response carries *no* id field at all (the
`"unknown"` default applies only to successfully parsed requests that lack
an id, not to unparseable lines). -/
theorem C3_worker_loop_resilience (py : Request → PyOutcome) (bash : Request → BashOutcome)
    (parse : String → ParseOutcome) (lines ls1 ls2 : List String) (l : String) (e : String)
    (hbl : pyStrip l ≠ "") (hpe : parse (pyStrip l) = ParseOutcome.err e) :
    (main_loop py bash parse lines).length =
      (lines.filter (fun x => pyStrip x != "")).length ∧
    processLine py bash parse l =
      [{ rid := none, success := false, result := none,
         error := some ("invalid json: " ++ e), stdout := none, stderr := none }] ∧
    (∀ lb : String, pyStrip lb = "" → processLine py bash parse lb = []) ∧
    main_loop py bash parse (ls1 ++ ls2) =
      main_loop py bash parse ls1 ++ main_loop py bash parse ls2 := by
  refine ⟨?_, ?_, ?_, ?_⟩
  · induction lines with
    | nil => rfl
    | cons a t ih =>
      by_cases ha : pyStrip a = ""
      · simp [main_loop, processLine, ha, ih]
      · cases hp : parse (pyStrip a) <;> simp [main_loop, processLine, ha, hp, ih]
  · simp [processLine, hbl, hpe]
  · intro lb hlb
    simp [processLine, hlb]
  · induction ls1 with
    | nil => rfl
    | cons a t ih => simp [main_loop, ih]

/-- Witness for C3: a malformed line among blank and valid ones, under the
concrete oracles. -/
theorem C3_witness :
    (main_loop pyOracle0 bashOracle0 parseOracle0 ["bad", "", "ok"]).length =
      ((["bad", "", "ok"] : List String).filter (fun x => pyStrip x != "")).length ∧
    processLine pyOracle0 bashOracle0 parseOracle0 " bad " =
      [{ rid := none, success := false, result := none,
         error := some ("invalid json: " ++ "Expecting value"), stdout := none, stderr := none }] ∧
    (∀ lb : String, pyStrip lb = "" → processLine pyOracle0 bashOracle0 parseOracle0 lb = []) ∧
    main_loop pyOracle0 bashOracle0 parseOracle0 (["bad"] ++ ["ok"]) =
      main_loop pyOracle0 bashOracle0 parseOracle0 ["bad"] ++
        main_loop pyOracle0 bashOracle0 parseOracle0 ["ok"] :=
  C3_worker_loop_resilience pyOracle0 bashOracle0 parseOracle0 ["bad", "", "ok"]
    ["bad"] ["ok"] " bad " "Expecting value" (by decide) (by decide)

/-- Counterexample to C3 as stated: the response to a line that fails JSON
parsing carries no request id at all — in particular not the claimed
`"unknown"` default. -/
theorem C3_counterexample :
    (processLine pyOracle0 bashOracle0 parseOracle0 "notjson").map Response.rid = [none] ∧
    ¬((processLine pyOracle0 bashOracle0 parseOracle0 "notjson").map Response.rid =
        [some "unknown"]) := by
  decide

/-- Claim C7: a bash request whose command exceeds the fixed 30-second
timeout has its process killed by the runner, and `execute_bash` synthesizes
return code 124 with the timeout-specific stderr message; `process_request`
then answers with success=false carrying that error; a bash command that
finishes in time yields success exactly when its exit code is zero. -/
theorem C7_bash_timeout (py : PyOutcome) (r : Request) (c : String) (p : Option String)
    (o e : String) (rc : Int)
    (hcode : r.code = some c) (hne : pyStrip c ≠ "") (hlang : r.language = some "bash") :
    execute_bash (BashOutcome.timedOut p) =
      (p.getD "", "Bash execution timed out (30s)", 124) ∧
    (process_request py (BashOutcome.timedOut p) r).success = false ∧
    (process_request py (BashOutcome.timedOut p) r).error =
      some "Bash execution timed out (30s)" ∧
    ((process_request py (BashOutcome.completed o e rc) r).success = true ↔ rc = 0) := by
  obtain ⟨rid, rcode, rlang, rpkgs⟩ := r
  simp only at hcode hlang
  subst hcode
  subst hlang
  refine ⟨rfl, ?_, ?_, ?_⟩
  · simp [process_request, execute_bash, hne]
  · simp [process_request, execute_bash, hne]
  · by_cases hrc : rc = 0 <;>
      simp [process_request, execute_bash, hne, hrc, okResponse]

/-- Witness for C7 at a concrete sleeping request. -/
theorem C7_witness :
    execute_bash (BashOutcome.timedOut (some "early output")) =
      ((some "early output" : Option String).getD "", "Bash execution timed out (30s)", 124) ∧
    (process_request (PyOutcome.ok "unused")
      (BashOutcome.timedOut (some "early output"))
      { rid := some "7", code := some "sleep 60", language := some "bash",
        packages := none }).success = false ∧
    (process_request (PyOutcome.ok "unused")
      (BashOutcome.timedOut (some "early output"))
      { rid := some "7", code := some "sleep 60", language := some "bash",
        packages := none }).error = some "Bash execution timed out (30s)" ∧
    ((process_request (PyOutcome.ok "unused") (BashOutcome.completed "done" "" 0)
      { rid := some "7", code := some "sleep 60", language := some "bash",
        packages := none }).success = true ↔ (0 : Int) = 0) :=
  C7_bash_timeout (PyOutcome.ok "unused")
    { rid := some "7", code := some "sleep 60", language := some "bash", packages := none }
    "sleep 60" (some "early output") "done" "" 0 rfl (by decide) rfl
